import Mathlib

/-!
Shallow embedding of `pkg/k8s/portforward.go` (pod port-forward tunnel
manager) and proofs about its specified behavior.

External collaborators (the Kubernetes API client, the SPDY transport and
the client-go forwarder loop) are modelled by passing their outcomes as
explicit parameters; the control flow of the Go functions themselves is
translated faithfully.
-/

set_option autoImplicit false

deriving instance DecidableEq for Except

namespace Linkerd

/-- `corev1.PodPhase` (the phases relevant to this file). -/
inductive PodPhase where
  | pending
  | running
  | succeeded
  | failed
  | unknown
  deriving DecidableEq, Repr, Inhabited

/-- `corev1.ContainerPort`: a named port declared on a container.
The Go zero value has `Name = ""` and `ContainerPort = 0`. -/
structure ContainerPort where
  name : String
  containerPort : Int
  deriving DecidableEq, Repr

instance : Inhabited ContainerPort := ⟨{ name := "", containerPort := 0 }⟩

/-- `corev1.Container` (the fields this file reads).
The Go zero value has `Name = ""` and no ports. -/
structure Container where
  name : String
  ports : List ContainerPort
  deriving DecidableEq, Repr

instance : Inhabited Container := ⟨{ name := "", ports := [] }⟩

/-- `corev1.Pod` (the fields this file reads): metadata name/namespace,
status phase, and the declared containers. -/
structure Pod where
  nspace : String
  name : String
  phase : PodPhase
  containers : List Container
  deriving DecidableEq, Repr

instance : Inhabited Pod :=
  ⟨{ nspace := "", name := "", phase := PodPhase.unknown, containers := [] }⟩

/-- Modelled from the spec: the fixed sidecar-container identifier
(`ProxyContainerName`, a string constant declared elsewhere in the
repository and referenced by `NewProxyMetricsForward`). -/
def ProxyContainerName : String := "linkerd-proxy"

/-- Modelled from the spec: the fixed admin-port identifier
(`ProxyAdminPortName`, a string constant declared elsewhere in the
repository and referenced by `NewProxyMetricsForward`). -/
def ProxyAdminPortName : String := "linkerd-admin"

/-- `strings.HasPrefix(s, pre)`: `pre` is a prefix of `s` (character-wise). -/
def goHasPrefix (s pre : String) : Bool :=
  pre.data.isPrefixOf s.data

/-- The pod-selection loop of `NewPortForward` (portforward.go lines 90-98):
`podName` starts as `""`; the loop takes the first pod in list order whose
phase is `Running` and whose name has `deployName` as a prefix, and breaks. -/
def selectPodName (pods : List Pod) (deployName : String) : String :=
  match pods with
  | [] => ""
  | p :: rest =>
    if p.phase = PodPhase.running ∧ goHasPrefix p.name deployName then p.name
    else selectPodName rest deployName

/-- `NewPortForward`, up to pod selection (portforward.go lines 84-104).
The list query is an external call; its outcome (`listResult`) is passed in:
an error from the query is returned as-is, otherwise the selection loop runs
and an empty `podName` is reported as "no running pods found". -/
def NewPortForwardSelect (listResult : Except String (List Pod))
    (deployName : String) : Except String String :=
  match listResult with
  | .error e => .error e
  | .ok pods =>
    let podName := selectPodName pods deployName
    if podName = "" then .error ("no running pods found for " ++ deployName)
    else .ok podName

/-- The predicate the selection loop tests: phase `Running` and name
prefixed by `deployName`. -/
def matchesDeploy (deployName : String) (p : Pod) : Bool :=
  p.phase = PodPhase.running ∧ goHasPrefix p.name deployName

/-- `net.Listen("tcp", ":0")` result address, as observed on the returned
listener: `tcp` is a `*net.TCPAddr` carrying the OS-assigned port; `other`
is any other address type, carried with its string form. -/
inductive NetAddr where
  | tcp (port : Int)
  | other (addrString : String)
  deriving DecidableEq, Repr

/-- The listener returned by a successful `net.Listen`. -/
structure ListenSocket where
  addr : NetAddr
  deriving DecidableEq, Repr

/-- Outcome of `getEphemeralPort`: the returned value together with socket
bookkeeping (`acquired`: a listener was opened; `released`: the deferred
`ln.Close()` ran before returning). -/
structure EphemeralResult where
  result : Except String Int
  acquired : Bool
  released : Bool
  deriving DecidableEq, Repr

/-- `getEphemeralPort` (portforward.go lines 184-199): bind a listener on
port 0 of the wildcard address (the outcome of that external call is passed
in as `listen`), defer its close, and read back the bound address; a
non-TCP address is an error, otherwise the OS-assigned port is returned.
The deferred close runs on every path after a successful bind. -/
def getEphemeralPort (listen : Except String ListenSocket) : EphemeralResult :=
  match listen with
  | .error e => { result := .error e, acquired := false, released := false }
  | .ok ln =>
    match ln.addr with
    | .tcp p => { result := .ok p, acquired := true, released := true }
    | .other s =>
      { result := .error ("invalid listen address: " ++ s),
        acquired := true, released := true }

/-- The `PortForward` struct (portforward.go lines 23-32). The two Go
channels are represented by their observable state: `stopChClosed` records
whether `close(stopCh)` has happened; readiness is an event of the
forwarder loop and is recorded in the `RunTrace`, not here. `config` is
the opaque cluster credential object. -/
structure PortForward where
  method : String
  url : String
  localPort : Int
  remotePort : Int
  emitLogs : Bool
  stopChClosed : Bool
  config : String
  deriving DecidableEq, Repr, Inhabited

/-- The URL of the POST request targeting the pod's `portforward`
subresource, as produced by the REST request builder (external collaborator:
`CoreV1().RESTClient().Post().Resource("pods").Namespace(ns).Name(pod).SubResource("portforward")`). -/
def portForwardURL (nspace podName : String) : String :=
  "/api/v1/namespaces/" ++ nspace ++ "/pods/" ++ podName ++ "/portforward"

/-- `newPortForward` (portforward.go lines 107-138): build the subresource
request, allocate an ephemeral local port when `localPort == 0` (failing
construction if the allocation fails), and return the session with a fresh
open stop channel. -/
def newPortForward (config : String) (nspace podName : String)
    (localPort remotePort : Int) (emitLogs : Bool)
    (listen : Except String ListenSocket) : Except String PortForward :=
  let url := portForwardURL nspace podName
  if localPort = 0 then
    match (getEphemeralPort listen).result with
    | .error e => .error e
    | .ok p =>
      .ok { method := "POST", url := url, localPort := p,
            remotePort := remotePort, emitLogs := emitLogs,
            stopChClosed := false, config := config }
  else
    .ok { method := "POST", url := url, localPort := localPort,
          remotePort := remotePort, emitLogs := emitLogs,
          stopChClosed := false, config := config }

/-- The container-scan loop of `NewProxyMetricsForward` (lines 46-52):
`container` starts as the Go zero value; the loop takes the first container
named `ProxyContainerName` and breaks. -/
def findProxyContainer (cs : List Container) : Container :=
  match cs.find? (fun c => c.name == ProxyContainerName) with
  | some c => c
  | none => default

/-- The port-scan loop of `NewProxyMetricsForward` (lines 57-63):
`port` starts as the Go zero value; the loop takes the first port named
`ProxyAdminPortName` and breaks. -/
def findAdminPort (ps : List ContainerPort) : ContainerPort :=
  match ps.find? (fun p => p.name == ProxyAdminPortName) with
  | some p => p
  | none => default

/-- `NewProxyMetricsForward` (portforward.go lines 37-69): reject pods not
in `Running` phase, locate the proxy container by name, locate the admin
port by name, then construct the session with `localPort = 0` and the found
port's `ContainerPort` as the remote port. -/
def NewProxyMetricsForward (config : String) (pod : Pod) (emitLogs : Bool)
    (listen : Except String ListenSocket) : Except String PortForward :=
  if pod.phase ≠ PodPhase.running then
    .error ("pod not running: " ++ pod.name)
  else
    let container := findProxyContainer pod.containers
    if container.name ≠ ProxyContainerName then
      .error ("no " ++ ProxyContainerName ++ " container found for pod " ++ pod.name)
    else
      let port := findAdminPort container.ports
      if port.name ≠ ProxyAdminPortName then
        .error ("no " ++ ProxyAdminPortName ++ " port found for container " ++
          pod.name ++ "/" ++ container.name)
      else
        newPortForward config pod.nspace pod.name 0 port.containerPort emitLogs listen

/-- Go `close(ch)` on a channel whose closed-state is `closed`: closing an
already-closed channel is a runtime panic ("close of closed channel"),
modelled as the error branch. -/
def closeChan (closed : Bool) : Except String Bool :=
  if closed then .error "close of closed channel" else .ok true

/-- `Stop` (portforward.go lines 173-175): unconditionally
`close(pf.stopCh)`. The result is the updated session, or the runtime
panic if the stop channel was already closed. -/
def Stop (pf : PortForward) : Except String PortForward :=
  match closeChan pf.stopChClosed with
  | .error e => .error e
  | .ok b => .ok { pf with stopChClosed := b }

/-- One argument consumed by a `fmt.Sprintf` verb. -/
inductive FmtArg where
  | int (n : Int)
  | str (s : String)
  deriving DecidableEq, Repr

/-- A model of `fmt.Sprintf` covering the verbs this file uses, working on
the format string's character list: literal characters are copied, `%d`
formats the next integer argument in decimal, `%s` splices the next string
argument. -/
def sprintfChars : List Char → List FmtArg → List Char
  | [], _ => []
  | '%' :: 'd' :: rest, FmtArg.int n :: args => (toString n).data ++ sprintfChars rest args
  | '%' :: 's' :: rest, FmtArg.str s :: args => s.data ++ sprintfChars rest args
  | c :: rest, args => c :: sprintfChars rest args

/-- `fmt.Sprintf` on a format string and its arguments. -/
def sprintf (fmt : String) (args : List FmtArg) : String :=
  String.mk (sprintfChars fmt.data args)

/-- `URLFor` (portforward.go lines 178-180):
`fmt.Sprintf("http://127.0.0.1:%d%s", pf.localPort, path)`. -/
def URLFor (pf : PortForward) (path : String) : String :=
  sprintf "http://127.0.0.1:%d%s" [FmtArg.int pf.localPort, FmtArg.str path]

/-- Where a forwarder output stream is routed (`ioutil.Discard`,
`os.Stdout`, `os.Stderr`). -/
inductive OutStream where
  | discard
  | stdout
  | stderr
  deriving DecidableEq, Repr

/-- The dialer constructed by `Run` (`spdy.NewDialer`): determined by the
upgrade round-tripper plus the session's request method and URL. -/
structure Dialer where
  method : String
  url : String
  deriving DecidableEq, Repr

/-- Outcomes of the external calls `Run` makes, passed in explicitly:
`spdy.RoundTripperFor` (round-tripper construction), `portforward.New`
(forwarder construction), and, inside the forwarder's `ForwardPorts`, the
remote upgrade dial, the local listener bind, and the result of the
forwarding loop once running. -/
structure RunEnv where
  roundTripperErr : Option String
  forwarderNewErr : Option String
  upgradeErr : Option String
  bindErr : Option String
  loopResult : Except String Unit
  deriving DecidableEq, Repr

/-- Observable trace of one `Run` call: its return value, whether the ready
signal fired, and the ports mapping, dialer and output streams it handed to
the forwarder (`none` when `Run` returned before constructing them). -/
structure RunTrace where
  result : Except String Unit
  readyFired : Bool
  ports : Option (List String)
  dialer : Option Dialer
  outStream : Option OutStream
  errStream : Option OutStream
  deriving DecidableEq, Repr

/-- Modelled from the spec: the client-go forwarder's `ForwardPorts`
(external collaborator, design §4.4): it dials the upgraded remote
connection and binds the local listener; a failure of either returns that
error with readiness never fired; once both succeed the ready signal fires
and the loop runs until stop, remote close or fatal error, whose outcome is
its return value. -/
def forwardPorts (env : RunEnv) : Except String Unit × Bool :=
  match env.upgradeErr with
  | some e => (.error e, false)
  | none =>
    match env.bindErr with
    | some e => (.error e, false)
    | none => (env.loopResult, true)

/-- `Run` (portforward.go lines 141-163): construct the SPDY round-tripper
(early return on failure), choose the output streams from `emitLogs`, build
the `"local:remote"` ports mapping and the dialer, construct the forwarder
(early return on failure), then run `ForwardPorts`. -/
def Run (pf : PortForward) (env : RunEnv) : RunTrace :=
  match env.roundTripperErr with
  | some e =>
    { result := .error e, readyFired := false, ports := none, dialer := none,
      outStream := none, errStream := none }
  | none =>
    let out := if pf.emitLogs then OutStream.stdout else OutStream.discard
    let errOut := if pf.emitLogs then OutStream.stderr else OutStream.discard
    let ports := [sprintf "%d:%d" [FmtArg.int pf.localPort, FmtArg.int pf.remotePort]]
    let dialer : Dialer := { method := pf.method, url := pf.url }
    match env.forwarderNewErr with
    | some e =>
      { result := .error e, readyFired := false, ports := some ports,
        dialer := some dialer, outStream := some out, errStream := some errOut }
    | none =>
      let fw := forwardPorts env
      { result := fw.1, readyFired := fw.2, ports := some ports,
        dialer := some dialer, outStream := some out, errStream := some errOut }

theorem matchesDeploy_eq_true_iff (d : String) (p : Pod) :
    matchesDeploy d p = true ↔ (p.phase = PodPhase.running ∧ goHasPrefix p.name d) := by
  simp [matchesDeploy]

theorem selectPodName_eq_find (pods : List Pod) (deployName : String) :
    selectPodName pods deployName
      = ((pods.find? (matchesDeploy deployName)).map Pod.name).getD "" := by
  induction pods with
  | nil => rfl
  | cons p rest ih =>
    by_cases h : p.phase = PodPhase.running ∧ goHasPrefix p.name deployName
    · have hm : matchesDeploy deployName p = true := (matchesDeploy_eq_true_iff _ _).mpr h
      simp [selectPodName, h, List.find?_cons_of_pos _ hm]
    · have hm : ¬ matchesDeploy deployName p = true := fun hc =>
        h ((matchesDeploy_eq_true_iff _ _).mp hc)
      simp [selectPodName, h, List.find?_cons_of_neg _ hm, ih]

/-- A pod that is `Running` but has the empty string as its name: its name
collides with the selection loop's not-found sentinel. -/
def emptyNamePod : Pod :=
  { nspace := "prod", name := "", phase := PodPhase.running, containers := [] }

/-- C1 counterexample: the list `[emptyNamePod]` contains a `Running` pod
whose name starts with the prefix `""` (and it is the first such pod in
list order), yet the selection does not return it — it reports the
not-found error instead, because the empty pod name is indistinguishable
from the loop's `podName == ""` sentinel. -/
theorem C1_counterexample :
    matchesDeploy "" emptyNamePod = true ∧
    NewPortForwardSelect (.ok [emptyNamePod]) "" ≠ .ok emptyNamePod.name ∧
    NewPortForwardSelect (.ok [emptyNamePod]) ""
      = .error "no running pods found for " := by
  refine ⟨by decide, by decide, by decide⟩

/-- C1 (amended): when the list query succeeds, let `p` be the first pod in
list order that is `Running` and whose name starts with the prefix (no
additional sorting). If `p.name` is nonempty, the selection returns
`p.name`; if `p.name` is the empty string, the code conflates it with the
not-found sentinel and fails with the `NotFoundError` message. With no
`Running` matching pod at all, it fails with the `NotFoundError` message. -/
theorem C1_selectRunningPod (pods : List Pod) (deployName : String) :
    (∀ p, pods.find? (matchesDeploy deployName) = some p → p.name ≠ "" →
      NewPortForwardSelect (.ok pods) deployName = .ok p.name) ∧
    (∀ p, pods.find? (matchesDeploy deployName) = some p → p.name = "" →
      NewPortForwardSelect (.ok pods) deployName
        = .error ("no running pods found for " ++ deployName)) ∧
    (pods.find? (matchesDeploy deployName) = none →
      NewPortForwardSelect (.ok pods) deployName
        = .error ("no running pods found for " ++ deployName)) := by
  refine ⟨?_, ?_, ?_⟩
  · intro p hp hne
    simp [NewPortForwardSelect, selectPodName_eq_find, hp, hne]
  · intro p hp he
    simp [NewPortForwardSelect, selectPodName_eq_find, hp, he]
  · intro hn
    simp [NewPortForwardSelect, selectPodName_eq_find, hn]

/-- A pod matching the prefix `"web"` but not `Running`. -/
def wPodPending : Pod :=
  { nspace := "prod", name := "web-1", phase := PodPhase.pending, containers := [] }

/-- A `Running` pod matching the prefix `"web"`. -/
def wPodRun : Pod :=
  { nspace := "prod", name := "web-2", phase := PodPhase.running, containers := [] }

/-- Witness for the amended C1 theorem at a concrete list: the pending pod
is skipped and the first Running `web`-prefixed pod is selected. -/
theorem C1_selectRunningPod_witness :
    NewPortForwardSelect (.ok [wPodPending, wPodRun]) "web" = .ok wPodRun.name :=
  (C1_selectRunningPod [wPodPending, wPodRun] "web").1 wPodRun (by decide) (by decide)

/-- A concrete session exactly as `newPortForward` builds it for an
explicit local port (the listen outcome is irrelevant there). -/
def demoSession : PortForward :=
  { method := "POST", url := portForwardURL "ns" "pod-1",
    localPort := 8080, remotePort := 80, emitLogs := false,
    stopChClosed := false, config := "cfg" }

/-- C2: the code violates the claim. A freshly constructed session's first
`Stop` succeeds and leaves the stop channel closed; a second `Stop` on the
same session executes Go's `close` on an already-closed channel, which is a
runtime panic — `Stop` has no one-shot guard and no state flag. -/
theorem C2_double_stop_panics :
    newPortForward "cfg" "ns" "pod-1" 8080 80 false (.error "unused")
      = .ok demoSession ∧
    Stop demoSession = .ok { demoSession with stopChClosed := true } ∧
    Stop { demoSession with stopChClosed := true }
      = .error "close of closed channel" := by
  refine ⟨by decide, by decide, by decide⟩

/-- A pod carrying the proxy container with its admin port, in a chosen
phase. -/
def proxiedPod (ph : PodPhase) : Pod :=
  { nspace := "prod", name := "web-7f8", phase := ph,
    containers := [{ name := "linkerd-proxy",
                     ports := [{ name := "linkerd-admin",
                                 containerPort := 4191 }] }] }

/-- C3 counterexample: two pods identical except for the phase field get
different results from `NewProxyMetricsForward`: the non-Running one is
rejected with "pod not running", so the result does depend on the pod's
phase field, contrary to the claim. -/
theorem C3_counterexample :
    NewProxyMetricsForward "cfg" (proxiedPod PodPhase.pending) false
        (.ok { addr := NetAddr.tcp 5555 })
      ≠ NewProxyMetricsForward "cfg" (proxiedPod PodPhase.running) false
        (.ok { addr := NetAddr.tcp 5555 }) ∧
    NewProxyMetricsForward "cfg" (proxiedPod PodPhase.pending) false
        (.ok { addr := NetAddr.tcp 5555 })
      = .error "pod not running: web-7f8" := by
  refine ⟨by decide, by decide⟩

/-- C3 (amended): `NewProxyMetricsForward` re-verifies the phase itself
rather than trusting the caller: every pod whose phase is not `Running` is
rejected with the "pod not running" error before the container and port
lookups run, so the result does depend on the pod's phase field. -/
theorem C3_phase_recheck (config : String) (pod : Pod) (emitLogs : Bool)
    (listen : Except String ListenSocket) (h : pod.phase ≠ PodPhase.running) :
    NewProxyMetricsForward config pod emitLogs listen
      = .error ("pod not running: " ++ pod.name) := by
  simp [NewProxyMetricsForward, h]

/-- Witness for the amended C3 theorem: a `Failed`-phase pod that does have
the proxy container and admin port is still rejected as not running. -/
theorem C3_phase_recheck_witness :
    NewProxyMetricsForward "cfg" (proxiedPod PodPhase.failed) false
        (.ok { addr := NetAddr.tcp 1 })
      = .error ("pod not running: " ++ (proxiedPod PodPhase.failed).name) :=
  C3_phase_recheck "cfg" (proxiedPod PodPhase.failed) false
    (.ok { addr := NetAddr.tcp 1 }) (by decide)

theorem containerMsg_ne_portMsg (podName cName : String) :
    ("no " ++ ProxyContainerName ++ " container found for pod " ++ podName)
      ≠ ("no " ++ ProxyAdminPortName ++ " port found for container " ++
          podName ++ "/" ++ cName) := by
  intro h
  have h1 : goHasPrefix
      ("no " ++ ProxyContainerName ++ " container found for pod " ++ podName)
      "no linkerd-p" = true := rfl
  have h2 : goHasPrefix
      ("no " ++ ProxyAdminPortName ++ " port found for container " ++
        podName ++ "/" ++ cName)
      "no linkerd-p" = false := rfl
  rw [h, h2] at h1
  exact Bool.noConfusion h1

/-- C4: for `Running` pods, a missing proxy container and a missing admin
port are both reported as plain errors of the single error kind this model
has (`Except.error` with a message; the Go code builds both with
`fmt.Errorf`, one error kind), and their messages are distinct, the first
naming the container lookup and the second the port lookup. -/
theorem C4_notFoundError (config : String) (pod : Pod) (emitLogs : Bool)
    (listen : Except String ListenSocket)
    (hrun : pod.phase = PodPhase.running) :
    (pod.containers.find? (fun c => c.name == ProxyContainerName) = none →
      NewProxyMetricsForward config pod emitLogs listen
        = .error ("no " ++ ProxyContainerName ++ " container found for pod "
            ++ pod.name)) ∧
    (∀ c, pod.containers.find? (fun c => c.name == ProxyContainerName) = some c →
      c.ports.find? (fun q => q.name == ProxyAdminPortName) = none →
      NewProxyMetricsForward config pod emitLogs listen
        = .error ("no " ++ ProxyAdminPortName ++ " port found for container "
            ++ pod.name ++ "/" ++ c.name)) ∧
    (∀ c : Container,
      ("no " ++ ProxyContainerName ++ " container found for pod " ++ pod.name)
        ≠ ("no " ++ ProxyAdminPortName ++ " port found for container "
            ++ pod.name ++ "/" ++ c.name)) := by
  refine ⟨?_, ?_, fun c => containerMsg_ne_portMsg pod.name c.name⟩
  · intro hnone
    have hdef : findProxyContainer pod.containers = default := by
      simp [findProxyContainer, hnone]
    have hne : (default : Container).name ≠ ProxyContainerName := by decide
    simp [NewProxyMetricsForward, hrun, hdef, hne]
  · intro c hc hq
    have hcname : c.name = ProxyContainerName := by
      have := List.find?_some hc
      simpa using this
    have hcdef : findProxyContainer pod.containers = c := by
      simp [findProxyContainer, hc]
    have hqdef : findAdminPort c.ports = default := by
      simp [findAdminPort, hq]
    have hqne : (default : ContainerPort).name ≠ ProxyAdminPortName := by decide
    simp [NewProxyMetricsForward, hrun, hcdef, hcname, hqdef, hqne]

/-- A `Running` pod without the proxy sidecar container. -/
def noProxyPod : Pod :=
  { nspace := "prod", name := "web-9", phase := PodPhase.running,
    containers := [{ name := "app", ports := [] }] }

/-- Witness for C4 at a concrete pod lacking the sidecar container. -/
theorem C4_notFoundError_witness :
    NewProxyMetricsForward "cfg" noProxyPod false (.ok { addr := NetAddr.tcp 1 })
      = .error ("no " ++ ProxyContainerName ++ " container found for pod "
          ++ noProxyPod.name) :=
  (C4_notFoundError "cfg" noProxyPod false (.ok { addr := NetAddr.tcp 1 })
    (by decide)).1 (by decide)

/-- C5: with `localPort = 0` the session's local port is the allocator's
value and an allocator failure fails construction; with nonzero `localPort`
the session's local port is the caller-supplied value and the result does
not depend on the allocator outcome at all (no allocator call, no collision
check). -/
theorem C5_localPort (config nspace podName : String)
    (localPort remotePort : Int) (emitLogs : Bool) :
    (∀ e listen, (getEphemeralPort listen).result = .error e →
      newPortForward config nspace podName 0 remotePort emitLogs listen
        = .error e) ∧
    (∀ p listen, (getEphemeralPort listen).result = .ok p →
      ∃ s, newPortForward config nspace podName 0 remotePort emitLogs listen
        = .ok s ∧ s.localPort = p) ∧
    (localPort ≠ 0 →
      (∀ l1 l2,
        newPortForward config nspace podName localPort remotePort emitLogs l1
          = newPortForward config nspace podName localPort remotePort emitLogs l2) ∧
      (∀ listen, ∃ s,
        newPortForward config nspace podName localPort remotePort emitLogs listen
          = .ok s ∧ s.localPort = localPort)) := by
  refine ⟨?_, ?_, ?_⟩
  · intro e listen he
    simp [newPortForward, he]
  · intro p listen hp
    refine ⟨{ method := "POST", url := portForwardURL nspace podName,
              localPort := p, remotePort := remotePort, emitLogs := emitLogs,
              stopChClosed := false, config := config }, ?_, rfl⟩
    simp [newPortForward, hp]
  · intro hnz
    constructor
    · intro l1 l2
      simp [newPortForward, hnz]
    · intro listen
      refine ⟨{ method := "POST", url := portForwardURL nspace podName,
                localPort := localPort, remotePort := remotePort,
                emitLogs := emitLogs, stopChClosed := false,
                config := config }, ?_, rfl⟩
      simp [newPortForward, hnz]

/-- Witness for C5 at a concrete failing allocator: `localPort = 0` and a
failed listen propagate the allocation error out of construction. -/
theorem C5_localPort_witness :
    newPortForward "cfg" "ns" "pod-1" 0 80 false (.error "boom")
      = .error "boom" :=
  (C5_localPort "cfg" "ns" "pod-1" 0 80 false).1 "boom" (.error "boom")
    (by decide)

/-- C7: `getEphemeralPort` fails exactly when the listen call fails or the
bound address is not a TCP endpoint; on success it returns the port read
back from the bound socket; and every acquired socket is released, on both
the success path and the invalid-address path. -/
theorem C7_getEphemeralPort (listen : Except String ListenSocket) :
    ((∃ e, (getEphemeralPort listen).result = .error e) ↔
      ((∃ e, listen = .error e) ∨
        ∃ s, listen = .ok { addr := NetAddr.other s })) ∧
    (∀ p, listen = .ok { addr := NetAddr.tcp p } →
      (getEphemeralPort listen).result = .ok p) ∧
    (∀ ln, listen = .ok ln →
      (getEphemeralPort listen).acquired = true ∧
      (getEphemeralPort listen).released = true) ∧
    ((getEphemeralPort listen).acquired = true →
      (getEphemeralPort listen).released = true) := by
  match listen with
  | .error e => simp [getEphemeralPort]
  | .ok ⟨NetAddr.tcp p⟩ => simp [getEphemeralPort]
  | .ok ⟨NetAddr.other s⟩ => simp [getEphemeralPort]

/-- Witness for C7 at a concrete bound socket: the OS-assigned port is
returned. -/
theorem C7_getEphemeralPort_witness :
    (getEphemeralPort (.ok { addr := NetAddr.tcp 49152 })).result = .ok 49152 :=
  (C7_getEphemeralPort (.ok { addr := NetAddr.tcp 49152 })).2.1 49152 (by decide)

/-- C6: a round-tripper failure or a forwarder-construction failure makes
`Run` return that error with the ready signal never fired; conversely the
ready signal fires only when the round-tripper construction, the forwarder
construction, the remote upgrade, and the local bind all succeeded. -/
theorem C6_readiness (pf : PortForward) (env : RunEnv) :
    (∀ e, env.roundTripperErr = some e →
      (Run pf env).result = .error e ∧ (Run pf env).readyFired = false) ∧
    (∀ e, env.roundTripperErr = none → env.forwarderNewErr = some e →
      (Run pf env).result = .error e ∧ (Run pf env).readyFired = false) ∧
    ((Run pf env).readyFired = true →
      env.roundTripperErr = none ∧ env.forwarderNewErr = none ∧
      env.upgradeErr = none ∧ env.bindErr = none) := by
  rcases env with ⟨rt, fn, up, bd, lr⟩
  cases rt <;> cases fn <;> cases up <;> cases bd <;>
    simp [Run, forwardPorts]

/-- Environment where the SPDY round-tripper construction fails. -/
def rtFailEnv : RunEnv :=
  { roundTripperErr := some "upgrade refused", forwarderNewErr := none,
    upgradeErr := none, bindErr := none, loopResult := .ok () }

/-- Witness for C6 at a concrete failing upgrade negotiation: `Run` returns
the error and readiness never fires. -/
theorem C6_readiness_witness :
    (Run demoSession rtFailEnv).result = .error "upgrade refused" ∧
    (Run demoSession rtFailEnv).readyFired = false :=
  (C6_readiness demoSession rtFailEnv).1 "upgrade refused" (by decide)

/-- C8: `emitLogs` is a presentation switch only. For any session and any
environment, two runs that differ only in `emitLogs` produce traces that
agree on the result, the readiness signal, the ports mapping and the
dialer; the only difference is the output routing, which is the process's
standard streams when `emitLogs` is set and fully discarded otherwise. -/
theorem C8_emitLogs (pf : PortForward) (env : RunEnv) (b1 b2 : Bool) :
    (Run { pf with emitLogs := b1 } env).result
      = (Run { pf with emitLogs := b2 } env).result ∧
    (Run { pf with emitLogs := b1 } env).readyFired
      = (Run { pf with emitLogs := b2 } env).readyFired ∧
    (Run { pf with emitLogs := b1 } env).ports
      = (Run { pf with emitLogs := b2 } env).ports ∧
    (Run { pf with emitLogs := b1 } env).dialer
      = (Run { pf with emitLogs := b2 } env).dialer ∧
    (∀ s, (Run { pf with emitLogs := b1 } env).outStream = some s →
      s = (if b1 then OutStream.stdout else OutStream.discard)) ∧
    (∀ s, (Run { pf with emitLogs := b1 } env).errStream = some s →
      s = (if b1 then OutStream.stderr else OutStream.discard)) := by
  rcases env with ⟨rt, fn, up, bd, lr⟩
  cases rt <;> cases fn <;>
    simp [Run, forwardPorts]

/-- Environment where every external call succeeds. -/
def happyEnv : RunEnv :=
  { roundTripperErr := none, forwarderNewErr := none, upgradeErr := none,
    bindErr := none, loopResult := .ok () }

/-- Witness for C8 at a concrete session and environment: flipping
`emitLogs` leaves the result identical and routes output to stdout when
the flag is set. -/
theorem C8_emitLogs_witness :
    (Run { demoSession with emitLogs := true } happyEnv).outStream
      = some OutStream.stdout ∧
    (Run { demoSession with emitLogs := true } happyEnv).result
      = (Run { demoSession with emitLogs := false } happyEnv).result ∧
    OutStream.stdout = (if true then OutStream.stdout else OutStream.discard) :=
  ⟨by decide, (C8_emitLogs demoSession happyEnv true false).1,
    (C8_emitLogs demoSession happyEnv true false).2.2.2.2.1
      OutStream.stdout (by decide)⟩

/-- C9: for every session and path, `URLFor` returns exactly
`"http://127.0.0.1:" ++ <decimal localPort> ++ path`; it is a pure
function of the session's local port and the path. -/
theorem C9_URLFor (pf : PortForward) (path : String) :
    URLFor pf path = "http://127.0.0.1:" ++ toString pf.localPort ++ path := by
  apply String.ext
  rw [show (URLFor pf path).data
      = "http://127.0.0.1:".data
          ++ ((toString pf.localPort).data ++ (path.data ++ [])) from rfl]
  simp [String.data_append, List.append_assoc]

/-- C10: on the success path (Running pod, proxy container found, admin
port found), `NewProxyMetricsForward` constructs the session through
`newPortForward` with `localPort = 0`, so the local port always comes from
the ephemeral allocator (whose failure fails construction) and the remote
port is the declared `ContainerPort` of the named admin port; the caller
cannot choose the local port. -/
theorem C10_proxyMetricsPorts (config : String) (pod : Pod) (emitLogs : Bool)
    (listen : Except String ListenSocket) (c : Container) (q : ContainerPort)
    (hrun : pod.phase = PodPhase.running)
    (hc : pod.containers.find? (fun c => c.name == ProxyContainerName) = some c)
    (hq : c.ports.find? (fun p => p.name == ProxyAdminPortName) = some q) :
    NewProxyMetricsForward config pod emitLogs listen
      = newPortForward config pod.nspace pod.name 0 q.containerPort emitLogs listen ∧
    (∀ e, (getEphemeralPort listen).result = .error e →
      NewProxyMetricsForward config pod emitLogs listen = .error e) ∧
    (∀ p, (getEphemeralPort listen).result = .ok p →
      ∃ s, NewProxyMetricsForward config pod emitLogs listen = .ok s ∧
        s.localPort = p ∧ s.remotePort = q.containerPort) := by
  have hcname : c.name = ProxyContainerName := by simpa using List.find?_some hc
  have hqname : q.name = ProxyAdminPortName := by simpa using List.find?_some hq
  have hmain : NewProxyMetricsForward config pod emitLogs listen
      = newPortForward config pod.nspace pod.name 0 q.containerPort emitLogs listen := by
    simp [NewProxyMetricsForward, hrun, findProxyContainer, hc, findAdminPort,
      hq, hcname, hqname]
  refine ⟨hmain, ?_, ?_⟩
  · intro e he
    rw [hmain]
    simp [newPortForward, he]
  · intro p hp
    rw [hmain]
    refine ⟨{ method := "POST", url := portForwardURL pod.nspace pod.name,
              localPort := p, remotePort := q.containerPort,
              emitLogs := emitLogs, stopChClosed := false,
              config := config }, ?_, rfl, rfl⟩
    simp [newPortForward, hp]

/-- Witness for C10 at the concrete proxied pod: the session is built with
`localPort = 0` and remote port 4191 (the admin port's `ContainerPort`). -/
theorem C10_proxyMetricsPorts_witness :
    NewProxyMetricsForward "cfg" (proxiedPod PodPhase.running) false
        (.ok { addr := NetAddr.tcp 5555 })
      = newPortForward "cfg" (proxiedPod PodPhase.running).nspace
          (proxiedPod PodPhase.running).name 0 4191 false
          (.ok { addr := NetAddr.tcp 5555 }) :=
  (C10_proxyMetricsPorts "cfg" (proxiedPod PodPhase.running) false
    (.ok { addr := NetAddr.tcp 5555 })
    { name := "linkerd-proxy",
      ports := [{ name := "linkerd-admin", containerPort := 4191 }] }
    { name := "linkerd-admin", containerPort := 4191 }
    (by decide) (by decide) (by decide)).1

end Linkerd
